import Mathlib

/-!
Verification development for the Proxy Verifier replay client
(`src/local/src/client/verifier-client.cc`).

The file shallowly embeds the replay-orchestration engine: the
`ClientReplayFileHandler` parsing state machine (`ssn_open`, `txn_open`,
`client_request`, `proxy_request`, `txn_close`, `ssn_close`), the
`Run_Session` protocol dispatch, the per-worker round-robin target
selection of `TF_Client`, and the sort / normalize / rate-multiplier
pipeline of `Engine::command_run`.  Machine integers that cannot
overflow on the modelled inputs are `Nat`/`Int`; the `float`
rate-multiplier arithmetic is modelled exactly over `ℚ`.
-/

/- ===== Protocol scan of `ClientReplayFileHandler::ssn_open`
   (verifier-client.cc:116-157) ===== -/

/-- Case-insensitive starts-with check, modelling
`swoc::TextView::starts_with_nocase` as used on each protocol entry in
`ssn_open` (verifier-client.cc:128 and 131). -/
def startsWithNocase (s p : String) : Bool :=
  (p.toList.map Char.toLower).isPrefixOf (s.toList.map Char.toLower)

/-- The session fields written by the protocol scan of `ssn_open`:
`_ssn->is_h2`, `_ssn->is_tls`, `_ssn->_client_sni`. -/
structure ProtoFlags where
  is_h2 : Bool
  is_tls : Bool
  client_sni : Option String
deriving DecidableEq

/-- The freshly allocated `Ssn` of `ssn_open` before the scan:
both flags false, no SNI (verifier-client.cc:120). -/
def initFlags : ProtoFlags := ⟨false, false, none⟩

/-- Assignment of `_ssn->_client_sni` on the TLS branch: the C++ writes
the field only when the `tls` section holds a scalar `client-sni` node
(verifier-client.cc:133-138); `sni` is that node when present. -/
def setSni (sni old : Option String) : Option String :=
  match sni with
  | some v => some v
  | none => old

/-- The protocol-list scan of `ssn_open` (verifier-client.cc:127-148):
for each entry in file order, an `h2` prefix match sets `is_h2` and the
loop continues; a `tls` prefix match sets `is_tls`, reads the nested SNI
and `break`s out of the loop.  Both `if`s are checked on the same entry,
exactly as in the source. -/
def scanProtocols (sni : Option String) : List String → ProtoFlags → ProtoFlags
  | [], st => st
  | e :: rest, st =>
    let st1 := if startsWithNocase e "h2" then { st with is_h2 := true } else st
    if startsWithNocase e "tls" then
      { st1 with is_tls := true, client_sni := setSni sni st1.client_sni }
    else
      scanProtocols sni rest st1

/- ===== Load-lock pairing of `txn_open` / `txn_close`
   (verifier-client.cc:179-196 and 241-249) ===== -/

/-- Balance of `LoadMutex` acquisitions minus releases.  `lock()` adds
one, `unlock()` subtracts one; a negative balance is a release with no
matching acquisition (undefined behavior on a real `std::mutex`). -/
structure LoadLockState where
  depth : Int
deriving DecidableEq

/-- The two presence checks of `txn_open`'s validation:
`node[YAML_CLIENT_REQ_KEY]` and `node[YAML_PROXY_RSP_KEY]`
(verifier-client.cc:181 and 186). -/
structure TxnNode where
  hasClientReq : Bool
  hasProxyRsp : Bool
deriving DecidableEq

/-- `txn_open` validation: the errata stays ok iff both sections are
present (verifier-client.cc:181-192). -/
def txnOpenValid (n : TxnNode) : Bool := n.hasClientReq && n.hasProxyRsp

/-- `ClientReplayFileHandler::txn_open` (verifier-client.cc:179-196):
on validation failure it returns before `LoadMutex.lock()`, acquiring
nothing; on success it locks.  Returns whether validation passed and
the updated lock balance. -/
def txn_open (n : TxnNode) (st : LoadLockState) : Bool × LoadLockState :=
  if txnOpenValid n then (true, ⟨st.depth + 1⟩) else (false, st)

/-- The `LoadMutex.unlock()` performed unconditionally at the end of
`ClientReplayFileHandler::txn_close` (verifier-client.cc:247). -/
def txn_close_lock (st : LoadLockState) : LoadLockState := ⟨st.depth - 1⟩

/-- Modelled from the spec: the per-file driver (`Load_Replay_File`,
not under `src/`) visits one transaction node by invoking `txn_open`
and then `txn_close` in the scope order of section 4.1; per the note in
section 9 the close step runs, and releases the load lock,
unconditionally on this path. -/
def processTxnNode (n : TxnNode) (st : LoadLockState) : LoadLockState :=
  txn_close_lock (txn_open n st).2

/- ===== Request-load handlers (verifier-client.cc:198-210) ===== -/

/-- A `swoc::Errata`, reduced to the list of diagnostic messages it
carries; the empty list is an ok result. -/
structure Errata where
  msgs : List String
deriving DecidableEq

/-- A default-constructed ok `Errata`, the `return {}` of the
handlers. -/
def emptyErrata : Errata := ⟨[]⟩

/-- `ClientReplayFileHandler::client_request` (verifier-client.cc:198-203):
in client mode (`Use_Proxy_Request_Directives == false`) it calls
`_txn._req.load(node)` as a bare statement, discarding the returned
`Errata`, and returns `{}`; `loadResult` is what that call returned. -/
def client_request (useProxyRequestDirectives : Bool) (loadResult : Errata) : Errata :=
  if !useProxyRequestDirectives then
    let _ := loadResult
    emptyErrata
  else
    emptyErrata

/-- `ClientReplayFileHandler::proxy_request` (verifier-client.cc:205-210):
in no-proxy mode it returns the `Errata` of `_txn._req.load(node)`
directly. -/
def proxy_request (useProxyRequestDirectives : Bool) (loadResult : Errata) : Errata :=
  if useProxyRequestDirectives then loadResult else emptyErrata

/- ===== Session registry append of `ssn_close`
   (verifier-client.cc:251-260) ===== -/

/-- A session as seen by `ssn_close`: just its attached transaction
list (transactions abstracted to their keys). -/
structure SsnTxns where
  transactions : List Nat
deriving DecidableEq

/-- `ClientReplayFileHandler::ssn_close` (verifier-client.cc:251-260):
under `LoadMutex`, push the session onto `Session_List` only when its
transaction list is non-empty. -/
def ssn_close (s : SsnTxns) (registry : List SsnTxns) : List SsnTxns :=
  if !s.transactions.isEmpty then registry ++ [s] else registry

/- ===== `Run_Session` protocol dispatch (verifier-client.cc:262-298) ===== -/

/-- Which runner `Run_Session` selects, or that it skips the session
without connecting (the early `return errata` on the HTTP/2-with-
`Use_Proxy_Request_Directives` branch, verifier-client.cc:271-280). -/
inductive RunnerChoice
  | skipped
  | h2Runner
  | tlsRunner
  | plainRunner
deriving DecidableEq

/-- The branch structure of `Run_Session` (verifier-client.cc:271-291):
an HTTP/2 session is skipped exactly when `Use_Proxy_Request_Directives`
is true (the `--no-proxy` mode), otherwise it gets the `H2Session`
runner against the HTTPS target; a TLS session gets `TLSSession`
against the HTTPS target; anything else the plain `Session` against the
HTTP target. -/
def Run_Session_choice (useProxyRequestDirectives is_h2 is_tls : Bool) : RunnerChoice :=
  if is_h2 then
    if useProxyRequestDirectives then RunnerChoice.skipped else RunnerChoice.h2Runner
  else if is_tls then RunnerChoice.tlsRunner
  else RunnerChoice.plainRunner

/- ===== Round-robin target cursors of `TF_Client`
   (verifier-client.cc:300-320) ===== -/

/-- Protocol classification of a dispatched session, as consulted by
`Run_Session`. -/
inductive SsnProto
  | plain
  | tls
  | h2
deriving DecidableEq

/-- The two per-worker cursors `target_index` and `target_https_index`
of `TF_Client`, both initialised to 0 (verifier-client.cc:303-304). -/
structure TFState where
  target_index : Nat
  target_https_index : Nat
deriving DecidableEq

/-- The post-session cursor bump
`if (++idx >= size) idx = 0;` (verifier-client.cc:314-317). -/
def advanceIndex (i size : Nat) : Nat :=
  if i + 1 ≥ size then 0 else i + 1

/-- After `Run_Session` returns, `TF_Client` advances BOTH cursors,
whatever protocol the session used (verifier-client.cc:314-317);
`nT` and `nTH` are `Target.size()` and `Target_Https.size()`. -/
def tfStep (nT nTH : Nat) (st : TFState) : TFState :=
  ⟨advanceIndex st.target_index nT, advanceIndex st.target_https_index nTH⟩

/-- One iteration of the `TF_Client` work loop for a session of
protocol `p`: `Run_Session` receives `Target[target_index]` and
`Target_Https[target_https_index]` and uses the one matching the
session's protocol; the returned `Nat` is the index of the endpoint
actually used.  Both cursors then advance. -/
def tfDispatch (nT nTH : Nat) (p : SsnProto) (st : TFState) : Nat × TFState :=
  (match p with
   | SsnProto.plain => st.target_index
   | _ => st.target_https_index,
   tfStep nT nTH st)

/-- The sequence of HTTP (`Target`) indices consumed by the plain
sessions of a dispatch trace handled by one worker. -/
def httpIndicesUsed (nT nTH : Nat) : List SsnProto → TFState → List Nat
  | [], _ => []
  | p :: rest, st =>
    (match p with
     | SsnProto.plain => [st.target_index]
     | _ => []) ++ httpIndicesUsed nT nTH rest (tfStep nT nTH st)

/- ===== Fatal-error handling of `Engine::command_run`
   (verifier-client.cc:354-508) ===== -/

/-- Observable outcome of `command_run`: the `Engine::status_code`
(verifier-client.cc:345), the number of sessions actually assigned to a
worker, and the number of `"Failed to get worker thread"` errors logged
(verifier-client.cc:485). -/
structure DispatchOutcome where
  status_code : Nat
  dispatched : Nat
  workerErrors : Nat
deriving DecidableEq

/-- The dispatch loop of `command_run` (verifier-client.cc:475-496),
one Boolean per session telling whether `get_worker` returned a worker:
on `nullptr` an error is logged and the loop moves on to the next
session; `status_code` is never touched here. -/
def dispatchSessions : List Bool → DispatchOutcome → DispatchOutcome
  | [], o => o
  | w :: rest, o =>
    if w then dispatchSessions rest ⟨o.status_code, o.dispatched + 1, o.workerErrors⟩
    else dispatchSessions rest ⟨o.status_code, o.dispatched, o.workerErrors + 1⟩

/-- The control flow of `Engine::command_run` that decides
`status_code` (verifier-client.cc:359-406 and 475-496): fewer than 3
arguments, a failed `resolve_ips` on either target list, or a failed
`Load_Replay_Directory` set `status_code = 1` and return; otherwise the
dispatch loop runs over the per-session `get_worker` results with
`status_code` still 0. -/
def command_run_status (nArgs : Nat) (resolveHttpOk resolveHttpsOk loadOk : Bool)
    (workerAvail : List Bool) : DispatchOutcome :=
  if nArgs < 3 then ⟨1, 0, 0⟩
  else if !resolveHttpOk then ⟨1, 0, 0⟩
  else if !resolveHttpsOk then ⟨1, 0, 0⟩
  else if !loadOk then ⟨1, 0, 0⟩
  else dispatchSessions workerAvail ⟨0, 0, 0⟩

/- ===== Sort / normalize / rate-multiplier pipeline of
   `Engine::command_run` (verifier-client.cc:414-456) ===== -/

/-- A loaded session as the scheduler sees it: its `_start` timestamp
(microseconds, `uint64_t`) and how many transactions it carries. -/
structure SsnM where
  start : Nat
  txns : Nat
deriving DecidableEq

/-- The ordering of `session_start_compare` (verifier-client.cc:322-324):
`std::list::sort` with the strict `<` on `_start` arranges sessions in
non-decreasing `_start` order; `ssnLe` is that resulting order. -/
def ssnLe (a b : SsnM) : Prop := a.start ≤ b.start

instance : DecidableRel ssnLe := fun a b => Nat.decLe a.start b.start

instance : IsTotal SsnM ssnLe := ⟨fun a b => Nat.le_total a.start b.start⟩

instance : IsTrans SsnM ssnLe := ⟨fun _ _ _ => Nat.le_trans⟩

/-- `Session_List.sort(session_start_compare)` (verifier-client.cc:415),
modelled by a stable sort on `_start`. -/
def sortSessions (l : List SsnM) : List SsnM := l.insertionSort ssnLe

/-- `offset_time` (verifier-client.cc:422-426): 0, overwritten with the
front sorted session's `_start` when the list is non-empty. -/
def offsetTime (l : List SsnM) : Nat :=
  match sortSessions l with
  | [] => 0
  | f :: _ => f.start

/-- The normalization loop `ssn->_start -= offset_time`
(verifier-client.cc:427-428) applied to the sorted list. -/
def normalizeSessions (l : List SsnM) : List SsnM :=
  (sortSessions l).map (fun s => ⟨s.start - offsetTime l, s.txns⟩)

/-- `transaction_count` accumulated over the loop
(verifier-client.cc:429); session order does not affect the sum. -/
def transactionCount (l : List SsnM) : Nat := (l.map SsnM.txns).sum

/-- `Session_List.back()->_start` as read by the rate computation
(verifier-client.cc:450), i.e. the last session's start after the
normalization loop has run; 0 for an empty list. -/
def lastNormalizedStart (l : List SsnM) : Nat :=
  match (normalizeSessions l).getLast? with
  | none => 0
  | some s => s.start

/-- Whether control reaches the division of verifier-client.cc:449-450:
a single `--rate` argument was given, `Session_List` is non-empty
(verifier-client.cc:444) and `atoi` gave a nonzero target
(verifier-client.cc:446). -/
def rateDivisionReached (rateArgGiven : Bool) (target : Int) (l : List SsnM) : Bool :=
  rateArgGiven && !l.isEmpty && !(target == 0)

/-- The divisor of the rate computation,
`target * Session_List.back()->_start` (verifier-client.cc:450),
with no guard on the second factor being zero. -/
def rateDivisor (target : Int) (l : List SsnM) : ℚ :=
  (target : ℚ) * (lastNormalizedStart l : ℚ)

/-- `rate_multiplier` (verifier-client.cc:438-456): 0 unless a single
`--rate` argument is present and the session list is non-empty; then 0
for a zero target, else
`(transaction_count * 1000000.0) / (target * Session_List.back()->_start)`.
The C++ `float` arithmetic is modelled exactly over `ℚ`. -/
def rate_multiplier (rateArg : Option Int) (l : List SsnM) : ℚ :=
  match rateArg with
  | none => 0
  | some target =>
    if l.isEmpty then 0
    else if target = 0 then 0
    else ((transactionCount l : ℚ) * 1000000) / rateDivisor target l

/-- The rate-multiplier formula in the words of the specification:
`rateMultiplier = (totalTransactions * 1_000_000) / (targetRate * totalSpanMicroseconds)`. -/
def specRateMultiplier (totalTransactions targetRate totalSpanMicroseconds : ℚ) : ℚ :=
  (totalTransactions * 1000000) / (targetRate * totalSpanMicroseconds)

/- ===== Theorems ===== -/

/-- Claim C5: entries of the declared protocol list are scanned in file
order; the first entry matching the TLS prefix sets the TLS flag, reads
the SNI nested under the TLS section and stops the scan, while an HTTP2
match only sets the HTTP2 flag and continues; consequently
`["h2","tls"]` yields `is_h2 = true` and `is_tls = true`, and
`["tls","h2"]` yields `is_tls = true` with the SNI captured and
`is_h2 = false`. -/
theorem c5_protocol_scan_order (sni : Option String) (st : ProtoFlags)
    (e : String) (rest : List String) :
    (startsWithNocase e "tls" = true → startsWithNocase e "h2" = false →
      scanProtocols sni (e :: rest) st =
        { st with is_tls := true, client_sni := setSni sni st.client_sni }) ∧
    (startsWithNocase e "h2" = true → startsWithNocase e "tls" = false →
      scanProtocols sni (e :: rest) st = scanProtocols sni rest { st with is_h2 := true }) ∧
    scanProtocols sni ["h2", "tls"] initFlags = ⟨true, true, sni⟩ ∧
    scanProtocols sni ["tls", "h2"] initFlags = ⟨false, true, sni⟩ := by
  have h1 : startsWithNocase "h2" "h2" = true := by decide
  have h2 : startsWithNocase "h2" "tls" = false := by decide
  have h3 : startsWithNocase "tls" "tls" = true := by decide
  have h4 : startsWithNocase "tls" "h2" = false := by decide
  refine ⟨?_, ?_, ?_, ?_⟩
  · intro ht hh
    simp [scanProtocols, ht, hh]
  · intro hh ht
    simp [scanProtocols, ht, hh]
  · cases sni <;> simp [scanProtocols, setSni, initFlags, h1, h2, h3, h4]
  · cases sni <;> simp [scanProtocols, setSni, initFlags, h1, h2, h3, h4]

/-- Witness for C5: concrete instantiations of the two conditional
parts, at a mixed-case TLS entry and at an `h2c` entry. -/
theorem c5_protocol_scan_order_witness :
    scanProtocols (some "example.com") ["TLS/1.3", "h2"] initFlags =
      { initFlags with is_tls := true,
                       client_sni := setSni (some "example.com") initFlags.client_sni } ∧
    scanProtocols none ["h2c", "tls"] initFlags =
      scanProtocols none ["tls"] { initFlags with is_h2 := true } :=
  ⟨(c5_protocol_scan_order (some "example.com") initFlags "TLS/1.3" ["h2"]).1
      (by decide) (by decide),
   (c5_protocol_scan_order none initFlags "h2c" ["tls"]).2.1
      (by decide) (by decide)⟩

/-- Claim C9: `ssn_close` appends a session to the registry only when
its transaction list is non-empty, so the invariant that every
registered session holds at least one transaction is preserved, and an
empty session leaves the registry unchanged. -/
theorem c9_registry_sessions_nonempty (s : SsnTxns) (registry : List SsnTxns)
    (h : ∀ r ∈ registry, r.transactions ≠ []) :
    (∀ r ∈ ssn_close s registry, r.transactions ≠ []) ∧
    (s.transactions = [] → ssn_close s registry = registry) := by
  constructor
  · intro r hr
    unfold ssn_close at hr
    by_cases he : s.transactions.isEmpty
    · simp [he] at hr
      exact h r hr
    · simp [he, List.mem_append] at hr
      rcases hr with hr | hr
      · exact h r hr
      · subst hr
        simpa [List.isEmpty_iff] using he
  · intro hs
    simp [ssn_close, hs]

/-- Witness for C9: a session with no transactions is not pushed onto a
concrete registry. -/
theorem c9_registry_sessions_nonempty_witness :
    ssn_close ⟨[]⟩ [⟨[3]⟩] = [⟨[3]⟩] :=
  (c9_registry_sessions_nonempty ⟨[]⟩ [⟨[3]⟩] (by decide)).2 rfl

/-- Claim C2 (code bug): a transaction node missing its client-request
section fails `txn_open` validation, so no load-lock acquisition
happens, yet the unconditional `LoadMutex.unlock()` of `txn_close`
still runs, driving the lock balance to −1 — a release with no matching
acquisition.  On a valid node the lock is acquired in `txn_open` and
the open→populate→close span ends balanced. -/
theorem c2_unlock_without_matching_lock :
    (txn_open ⟨false, true⟩ ⟨0⟩).1 = false ∧
    (txn_open ⟨false, true⟩ ⟨0⟩).2 = ⟨0⟩ ∧
    processTxnNode ⟨false, true⟩ ⟨0⟩ = ⟨-1⟩ ∧
    (txn_open ⟨true, true⟩ ⟨0⟩).2 = ⟨1⟩ ∧
    processTxnNode ⟨true, true⟩ ⟨0⟩ = ⟨0⟩ := by
  decide

/-- Claim C7 (code bug): in client mode `client_request` discards the
`Errata` returned by `_txn._req.load(node)` and returns an empty ok
result, while `proxy_request` in no-proxy mode returns the load result
unchanged. -/
theorem c7_client_request_discards_load_result :
    client_request false ⟨["malformed request node"]⟩ = emptyErrata ∧
    proxy_request true ⟨["malformed request node"]⟩ = ⟨["malformed request node"]⟩ := by
  constructor <;> rfl

/-- Claim C4, counterexample: with `Use_Proxy_Request_Directives = false`
(the default, i.e. the run mode that expects a proxy on the path) an
HTTP/2 session is NOT skipped — it gets the HTTP/2 runner — and the
skip happens in the opposite mode (`--no-proxy`), refuting the claim's
condition. -/
theorem c4_counterexample :
    Run_Session_choice false true false = RunnerChoice.h2Runner ∧
    Run_Session_choice false true false ≠ RunnerChoice.skipped ∧
    Run_Session_choice true true false = RunnerChoice.skipped := by
  decide

/-- Claim C4, amended: an HTTP/2-classified session is skipped (logged
and discarded without connecting) exactly when
`Use_Proxy_Request_Directives` is true, i.e. in `--no-proxy` mode where
no proxy terminates HTTP/2; when a proxy is expected the session is
executed by the HTTP/2 runner against the HTTPS target. -/
theorem c4_h2_skipped_only_without_proxy :
    (∀ is_tls, Run_Session_choice true true is_tls = RunnerChoice.skipped) ∧
    (∀ is_tls, Run_Session_choice false true is_tls = RunnerChoice.h2Runner) := by
  decide

/-- Claim C1, counterexample: with 2 HTTP targets and 3 HTTPS targets,
a worker handling the trace plain,tls,plain,plain,plain,plain (5 plain
sessions with one TLS dispatch interleaved) consumes HTTP indices
`[0, 0, 1, 0, 1]`, not the claimed `[0, 1, 0, 1, 0]`: the interleaved
HTTPS dispatch also advanced the HTTP cursor. -/
theorem c1_counterexample :
    httpIndicesUsed 2 3
        [SsnProto.plain, SsnProto.tls, SsnProto.plain, SsnProto.plain,
         SsnProto.plain, SsnProto.plain] ⟨0, 0⟩ = [0, 0, 1, 0, 1] ∧
    httpIndicesUsed 2 3
        [SsnProto.plain, SsnProto.tls, SsnProto.plain, SsnProto.plain,
         SsnProto.plain, SsnProto.plain] ⟨0, 0⟩ ≠ [0, 1, 0, 1, 0] := by
  decide

/-- Claim C1, amended: each worker keeps two separate cursors, each
wrapping modulo its own list length, but BOTH advance after every
dispatched session regardless of its protocol — the cursor step is
independent of the session's protocol — so 5 plain sessions select HTTP
targets `[0, 1, 0, 1, 0]` only when no TLS/HTTP2 dispatch is
interleaved on that worker. -/
theorem c1_both_cursors_advance_every_session :
    (∀ nT nTH p st, (tfDispatch nT nTH p st).2 = tfStep nT nTH st) ∧
    httpIndicesUsed 2 3
        [SsnProto.plain, SsnProto.plain, SsnProto.plain, SsnProto.plain,
         SsnProto.plain] ⟨0, 0⟩ = [0, 1, 0, 1, 0] := by
  constructor
  · intro nT nTH p st
    cases p <;> rfl
  · decide

/-- Claim C3, counterexample: with valid arguments, resolved endpoints
and a loaded directory, a `get_worker` failure during dispatch logs the
`"Failed to get worker thread"` error but leaves `status_code` at 0 and
dispatch continues with the remaining sessions — the run is not aborted
and the process exit status is zero. -/
theorem c3_counterexample :
    (command_run_status 3 true true true [true, false, true]).workerErrors = 1 ∧
    (command_run_status 3 true true true [true, false, true]).status_code = 0 ∧
    (command_run_status 3 true true true [true, false, true]).dispatched = 2 := by
  decide

/-- Claim C3, amended: insufficient CLI arguments, either endpoint
resolution failing, and a failed directory load each set
`status_code = 1` and abort before dispatch; a worker-acquisition
failure during dispatch is only logged — the dispatch loop never writes
`status_code`. -/
theorem c3_worker_failure_not_fatal :
    (command_run_status 2 true true true []).status_code = 1 ∧
    (command_run_status 3 false true true []).status_code = 1 ∧
    (command_run_status 3 true false true []).status_code = 1 ∧
    (command_run_status 3 true true false []).status_code = 1 ∧
    (∀ avail o, (dispatchSessions avail o).status_code = o.status_code) := by
  refine ⟨rfl, rfl, rfl, rfl, ?_⟩
  intro avail
  induction avail with
  | nil => intro o; rfl
  | cons w rest ih =>
    intro o
    cases w <;> simp [dispatchSessions] <;> exact ih _

/-- Claim C8: for a non-empty registry, `command_run` sorts sessions by
recorded start time ascending, the subtracted `offset_time` is the
earliest start in the batch, normalization maps every sorted session's
start to `start - offset_time`, and the minimum normalized start is
exactly 0. -/
theorem c8_sort_and_normalize (l : List SsnM) (h : l ≠ []) :
    List.Sorted ssnLe (sortSessions l) ∧
    normalizeSessions l = (sortSessions l).map (fun s => ⟨s.start - offsetTime l, s.txns⟩) ∧
    (∀ s ∈ l, offsetTime l ≤ s.start) ∧
    ((normalizeSessions l).map SsnM.start).min? = some 0 := by
  have hsorted : List.Sorted ssnLe (sortSessions l) := List.sorted_insertionSort ssnLe l
  have hperm : (sortSessions l).Perm l := List.perm_insertionSort ssnLe l
  have hne : sortSessions l ≠ [] := by
    intro hnil
    exact h (List.Perm.eq_nil (hnil ▸ hperm).symm)
  refine ⟨hsorted, rfl, ?_, ?_⟩
  · intro s hs
    have hs' : s ∈ sortSessions l := hperm.mem_iff.mpr hs
    cases hsort : sortSessions l with
    | nil => exact absurd hsort hne
    | cons f rest =>
      have hoff : offsetTime l = f.start := by simp [offsetTime, hsort]
      rw [hsort] at hs' hsorted
      rw [hoff]
      rcases List.mem_cons.mp hs' with hrf | hrr
      · exact hrf ▸ le_refl _
      · exact List.rel_of_sorted_cons hsorted s hrr
  · cases hsort : sortSessions l with
    | nil => exact absurd hsort hne
    | cons f rest =>
      have hoff : offsetTime l = f.start := by simp [offsetTime, hsort]
      have hmem : 0 ∈ (normalizeSessions l).map SsnM.start := by
        simp [normalizeSessions, hsort, hoff]
      refine (List.min?_eq_some_iff (fun a => le_refl a) (fun a b => min_choice a b)
        (fun a b c => le_min_iff)).mpr ⟨hmem, fun b _ => Nat.zero_le b⟩

/-- Witness for C8: a concrete two-session batch (starts 5 and 3) has
minimum normalized start exactly 0. -/
theorem c8_sort_and_normalize_witness :
    ((normalizeSessions [⟨5, 1⟩, ⟨3, 2⟩]).map SsnM.start).min? = some 0 :=
  (c8_sort_and_normalize [⟨5, 1⟩, ⟨3, 2⟩] (by decide)).2.2.2

/-- Claim C6: with a rate argument given and a non-empty batch, a zero
target yields a zero rate multiplier; a nonzero target yields
`(transactionCount * 1_000_000) / (target * lastNormalizedStart)`,
matching the specification's formula; and 100 transactions over a
10 000 000 µs span at target rate 50 give multiplier 1/5 = 0.2. -/
theorem c6_rate_multiplier_formula (l : List SsnM) (target : Int)
    (hne : l ≠ []) (hnz : target ≠ 0) :
    rate_multiplier (some 0) l = 0 ∧
    rate_multiplier (some target) l =
      specRateMultiplier (transactionCount l) target (lastNormalizedStart l) ∧
    rate_multiplier (some 50) [⟨0, 40⟩, ⟨10000000, 60⟩] = 1 / 5 := by
  have hne' : l.isEmpty = false := by simpa [List.isEmpty_iff] using hne
  refine ⟨?_, ?_, ?_⟩
  · simp [rate_multiplier, hne']
  · simp [rate_multiplier, hne', hnz, specRateMultiplier, rateDivisor]
  · norm_num [rate_multiplier, transactionCount, rateDivisor, lastNormalizedStart,
      normalizeSessions, sortSessions, offsetTime, List.insertionSort, List.orderedInsert, ssnLe]

/-- Witness for C6: the specification's worked example, instantiated —
two sessions totalling 100 transactions spanning 10 000 000 µs at rate
50 give multiplier 1/5. -/
theorem c6_rate_multiplier_formula_witness :
    rate_multiplier (some 50) [⟨0, 40⟩, ⟨10000000, 60⟩] = 1 / 5 :=
  (c6_rate_multiplier_formula [⟨0, 40⟩, ⟨10000000, 60⟩] 50 (by decide) (by decide)).2.2

/-- Claim C10: the rate computation's divisor
`target * Session_List.back()->_start` is unguarded against a zero last
normalized start: with a nonzero target (50) and a non-empty batch in
which every session has the same recorded start (two sessions at 5),
control reaches the division while the divisor is zero. -/
theorem c10_unguarded_zero_divisor :
    rateDivisionReached true 50 [⟨5, 1⟩, ⟨5, 1⟩] = true ∧
    lastNormalizedStart [⟨5, 1⟩, ⟨5, 1⟩] = 0 ∧
    rateDivisor 50 [⟨5, 1⟩, ⟨5, 1⟩] = 0 := by
  refine ⟨by decide, by decide, ?_⟩
  norm_num [rateDivisor, lastNormalizedStart, normalizeSessions, sortSessions, offsetTime,
    List.insertionSort, List.orderedInsert, ssnLe]
